import Mathlib

/-!
Shallow embedding of the OceanChat query-routing pipeline
(`backend/app/services/{nlp_service,data_router_service,nc_database_service,external_api_service}.py`).

Numeric values are modelled as rationals; the sources of nondeterminism in the
code (random jitter, wall-clock time, network results, database contents) are
passed in explicitly as parameters.
-/

namespace OceanChat

/-! ### Python-value model

JSON / Python values that flow through the external-API response parsers.
Python `None` (and JSON `null`) is modelled as `Option.none` around `JVal`.
-/

inductive JVal where
  | num (q : ℚ)
  | str (s : String)
deriving DecidableEq, Repr

/-- A Python dict with string keys; insertion keeps keys unique (last write wins). -/
abbrev PyDict := List (String × Option JVal)

/-- Python truthiness of an optional value (`None`, `0`, `0.0`, `""` are falsy). -/
def truthyO : Option JVal → Bool
  | none => false
  | some (.num q) => q != 0
  | some (.str s) => s != ""

/-- Python `a or b`. -/
def pyOr (a b : Option JVal) : Option JVal := if truthyO a then a else b

/-- Python `d[k] = v`. -/
def dinsert (d : PyDict) (k : String) (v : Option JVal) : PyDict :=
  (k, v) :: d.filter (fun kv => kv.1 != k)

/-- Python `k in d`. -/
def dmem (d : PyDict) (k : String) : Bool := d.any (fun kv => kv.1 == k)

/-- Python `d.get(k)`: `None` when the key is absent or its value is `None`. -/
def vget (d : PyDict) (k : String) : Option JVal :=
  match d.find? (fun kv => kv.1 == k) with
  | some kv => kv.2
  | none => none

/-- Python `d.get(k, dflt)`. -/
def vgetD (d : PyDict) (k : String) (dflt : JVal) : Option JVal :=
  match d.find? (fun kv => kv.1 == k) with
  | some kv => kv.2
  | none => some dflt

/-! ### String helpers -/

/-- Python `str.lower()` (ASCII, which is all the keyword tables contain). -/
def pyLower (s : String) : String := String.mk (s.toList.map Char.toLower)

def listPrefixOf : List Char → List Char → Bool
  | [], _ => true
  | _ :: _, [] => false
  | a :: as, b :: bs => a == b && listPrefixOf as bs

def listInfixOf (needle : List Char) : List Char → Bool
  | [] => needle.isEmpty
  | b :: bs => listPrefixOf needle (b :: bs) || listInfixOf needle bs

/-- Python `needle in hay` on strings. -/
def containsSub (hay needle : String) : Bool := listInfixOf needle.toList hay.toList

def digitsToNat (l : List Char) : ℕ := l.foldl (fun a c => 10 * a + (c.toNat - 48)) 0

def fracOfDigits (l : List Char) : ℚ := (digitsToNat l : ℚ) / ((10 : ℚ) ^ l.length)

/-! ### `nlp_service.py` — `_extract_temporal_info` year regex `(20\d{2})`

`yearScan` returns the leftmost occurrence of `20` followed by two digits,
exactly as `re.search` does for that pattern.
-/

def yearAt : List Char → Option String
  | '2' :: '0' :: c :: d :: _ =>
    if c.isDigit && d.isDigit then some (String.mk ['2', '0', c, d]) else none
  | _ => none

def yearScan : List Char → Option String
  | [] => none
  | a :: rest =>
    match yearAt (a :: rest) with
    | some y => some y
    | none => yearScan rest

/-! ### `nlp_service.py` — coordinate regexes

`_extract_spatial_info` uses `(\d+(?:\.\d+)?)\s*[°]?\s*[ns]` (and `[ew]`).
`coordScan` finds the leftmost match: a digit run, an optional fraction,
optional whitespace, an optional degree sign, optional whitespace, then a
hemisphere letter.  Maximal-munch agrees with the regex here because no
character can belong to two consecutive pieces of this pattern.
-/

def isPyWs (c : Char) : Bool :=
  c == ' ' || c == '\t' || c == '\n' || c == '\r' || c == '\x0b' || c == '\x0c'

def skipWs (l : List Char) : List Char := l.dropWhile isPyWs

/-- Parse `\d+(?:\.\d+)?` at the head of the list; returns the value and the rest. -/
def numberAt (l : List Char) : Option (ℚ × List Char) :=
  let ds := l.takeWhile Char.isDigit
  if ds.isEmpty then none
  else
    let rest := l.drop ds.length
    match rest with
    | '.' :: r2 =>
      let fs := r2.takeWhile Char.isDigit
      if fs.isEmpty then some ((digitsToNat ds : ℚ), rest)
      else some ((digitsToNat ds : ℚ) + fracOfDigits fs, r2.drop fs.length)
    | _ => some ((digitsToNat ds : ℚ), rest)

/-- Try to match the whole coordinate pattern starting exactly here. -/
def coordAt (hemis : List Char) (l : List Char) : Option (ℚ × Char) :=
  match numberAt l with
  | none => none
  | some (v, r1) =>
    let r2 := skipWs r1
    let r3 := match r2 with
      | '°' :: r => r
      | _ => r2
    let r4 := skipWs r3
    match r4 with
    | c :: _ => if hemis.contains c then some (v, c) else none
    | [] => none

def coordScan (hemis : List Char) : List Char → Option (ℚ × Char)
  | [] => none
  | a :: rest =>
    match coordAt hemis (a :: rest) with
    | some x => some x
    | none => coordScan hemis rest

/-- `re.search(r'(\d+(?:\.\d+)?)\s*[°]?\s*[ns]', query_lower)` with the
hemisphere sign applied (`'s' in match.group(0)` negates). -/
def latMatch (ql : String) : Option ℚ :=
  (coordScan ['n', 's'] ql.toList).map (fun vc => if vc.2 = 's' then -vc.1 else vc.1)

/-- Longitude counterpart (`[ew]`, `'w'` negates). -/
def lonMatch (ql : String) : Option ℚ :=
  (coordScan ['e', 'w'] ql.toList).map (fun vc => if vc.2 = 'w' then -vc.1 else vc.1)

/-! ### `nlp_service.py` — structured query model and `parse_query` -/

structure Bounds4 where
  minLat : ℚ
  maxLat : ℚ
  minLon : ℚ
  maxLon : ℚ
deriving DecidableEq, Repr

/-- `parsed["spatial"]` — each field `some` exactly when the dict key was set. -/
structure SpatialInfo where
  region : Option String := none
  center_lat : Option ℚ := none
  center_lon : Option ℚ := none
  bounds : Option Bounds4 := none
deriving DecidableEq, Repr

def spatialIsEmpty (s : SpatialInfo) : Bool :=
  s.region.isNone && s.center_lat.isNone && s.center_lon.isNone && s.bounds.isNone

/-- `parsed["temporal"]`. -/
structure TemporalInfo where
  start_time : Option String := none
  end_time : Option String := none
deriving DecidableEq, Repr

def temporalIsEmpty (t : TemporalInfo) : Bool :=
  t.start_time.isNone && t.end_time.isNone

/-- The wall clock, pre-rendered in the formats `nlp_service.py` derives from
`datetime.now()`: today, 30 days ago, 365 days ago (all `%Y-%m-%d`), and the
previous calendar year as digits. -/
structure Clock where
  today : String
  ago30 : String
  ago365 : String
  prevYear : String
deriving DecidableEq, Repr

/-- `self.oceanographic_terms` (dict insertion order preserved). -/
def oceanTerms : List (String × List String) :=
  [("temperature", ["temperature", "temp", "warm", "cold", "thermal"]),
   ("salinity", ["salinity", "salt", "sal", "saline"]),
   ("depth", ["depth", "deep", "shallow", "surface", "bottom"]),
   ("current", ["current", "flow", "velocity", "circulation"]),
   ("pressure", ["pressure", "press", "atm"])]

structure RegionDef where
  name : String
  clat : ℚ
  clon : ℚ
  rbounds : Bounds4
deriving DecidableEq, Repr

/-- `self.regions` (dict insertion order preserved; `bounds` lists are
`[min_lat, max_lat, min_lon, max_lon]`). -/
def regionsList : List RegionDef :=
  [⟨"pacific", 0, -150, ⟨-60, 60, -180, -100⟩⟩,
   ⟨"atlantic", 20, -30, ⟨-60, 70, -80, 20⟩⟩,
   ⟨"indian", -20, 80, ⟨-60, 30, 40, 120⟩⟩,
   ⟨"arctic", 80, 0, ⟨66, 90, -180, 180⟩⟩,
   ⟨"southern", -60, 0, ⟨-90, -60, -180, 180⟩⟩]

/-- `_extract_parameters`. -/
def extractParameters (ql : String) : List String :=
  let ps := (oceanTerms.filter (fun pt => pt.2.any (fun term => containsSub ql term))).map
    (fun pt => pt.1)
  if ps.isEmpty then ["temperature"] else ps

/-- First loop of `_extract_spatial_info`: the first region whose name occurs
in the query (the Python loop `break`s on the first hit). -/
def regionHit (ql : String) : Option RegionDef :=
  regionsList.find? (fun r => containsSub ql r.name)

def spatialStepRegion (ql : String) : SpatialInfo :=
  match regionHit ql with
  | some r =>
    { region := some r.name, center_lat := some r.clat, center_lon := some r.clon,
      bounds := some r.rbounds }
  | none => {}

def spatialStepCoord (ql : String) (s : SpatialInfo) : SpatialInfo :=
  match latMatch ql, lonMatch ql with
  | some la, some lo =>
    { s with center_lat := some la, center_lon := some lo,
             bounds := some ⟨la - 5, la + 5, lo - 5, lo + 5⟩ }
  | _, _ => s

def spatialStepNS (ql : String) (s : SpatialInfo) : SpatialInfo :=
  if containsSub ql "north" then { s with center_lat := some 45 }
  else if containsSub ql "south" then { s with center_lat := some (-45) }
  else s

def spatialStepEW (ql : String) (s : SpatialInfo) : SpatialInfo :=
  if containsSub ql "east" then { s with center_lon := some 90 }
  else if containsSub ql "west" then { s with center_lon := some (-90) }
  else s

/-- `_extract_spatial_info`. -/
def extractSpatialInfo (ql : String) : SpatialInfo :=
  spatialStepEW ql (spatialStepNS ql (spatialStepCoord ql (spatialStepRegion ql)))

/-- `_extract_temporal_info`: the year match fills both keys, which the
`recent`/`latest` branch then overwrites (the `last year` branch likewise,
via `elif`); when neither fires the year result stands. -/
def extractTemporalInfo (c : Clock) (ql : String) : TemporalInfo :=
  if containsSub ql "recent" || containsSub ql "latest" then
    { start_time := some c.ago30, end_time := some c.today }
  else if containsSub ql "last year" then
    { start_time := some (c.prevYear ++ "-01-01"), end_time := some (c.prevYear ++ "-12-31") }
  else
    match yearScan ql.toList with
    | some y => { start_time := some (y ++ "-01-01"), end_time := some (y ++ "-12-31") }
    | none => {}

/-- `_determine_query_type` (runs on the pre-default spatial/temporal dicts). -/
def determineQueryType (ql : String) (sp : SpatialInfo) (tp : TemporalInfo) : String :=
  if containsSub ql "trend" || containsSub ql "change" then "trend_analysis"
  else if containsSub ql "compare" || containsSub ql "difference" then "comparison"
  else if containsSub ql "pattern" || containsSub ql "distribution" then "pattern_analysis"
  else if !spatialIsEmpty sp then "spatial_query"
  else if !temporalIsEmpty tp then "temporal_query"
  else "general"

/-- `_get_default_spatial_bounds`. -/
def defaultSpatialBounds : SpatialInfo :=
  { region := some "global", center_lat := some 0, center_lon := some 0,
    bounds := some ⟨-90, 90, -180, 180⟩ }

/-- `_get_default_temporal_range`. -/
def defaultTemporalRange (c : Clock) : TemporalInfo :=
  { start_time := some c.ago365, end_time := some c.today }

/-- The `query_params` dict produced by `_convert_to_query_params`; `Option`
fields are `some` exactly when the corresponding key is present. -/
structure QueryParams where
  type : String
  parameters : List String
  center_lat : Option ℚ
  center_lon : Option ℚ
  min_lat : Option ℚ := none
  max_lat : Option ℚ := none
  min_lon : Option ℚ := none
  max_lon : Option ℚ := none
  start_time : Option String := none
  end_time : Option String := none
  min_depth : Option ℚ := none
  max_depth : Option ℚ := none
deriving DecidableEq, Repr

/-- `_convert_to_query_params` (`ql` is the lower-cased original query, used
for the depth keywords).  The incremental dict updates of the source are
written as one record: the four bound keys appear exactly when `bounds` was
set, the temporal keys exactly when extracted, the depth keys exactly when a
depth keyword occurs. -/
def convertToQueryParams (ql : String) (qtype : String) (params : List String)
    (sp : SpatialInfo) (tp : TemporalInfo) : QueryParams :=
  { type := qtype, parameters := params,
    center_lat := some (sp.center_lat.getD 0), center_lon := some (sp.center_lon.getD 0),
    min_lat := sp.bounds.map Bounds4.minLat, max_lat := sp.bounds.map Bounds4.maxLat,
    min_lon := sp.bounds.map Bounds4.minLon, max_lon := sp.bounds.map Bounds4.maxLon,
    start_time := tp.start_time, end_time := tp.end_time,
    min_depth := if containsSub ql "surface" then some 0
      else if containsSub ql "deep" then some 1000 else none,
    max_depth := if containsSub ql "surface" then some 50
      else if containsSub ql "deep" then some 5000 else none }

/-- `parse_query` (the `except` arm is unreachable here: every step is total). -/
def parseQuery (c : Clock) (text : String) : QueryParams :=
  let ql := pyLower text
  let params := extractParameters ql
  let sp := extractSpatialInfo ql
  let tp := extractTemporalInfo c ql
  let qtype := determineQueryType ql sp tp
  let sp2 := if spatialIsEmpty sp then defaultSpatialBounds else sp
  let tp2 := if temporalIsEmpty tp then defaultTemporalRange c else tp
  convertToQueryParams ql qtype params sp2 tp2

/-! ### Measurement dicts

A measurement record is a Python dict.  For each numeric key we record whether
the key is absent, present with value `None`, or present with a number — the
router's code distinguishes key presence (`"temperature" in sample`) from
truthiness (`item.get("latitude")`).
-/

inductive Field where
  | absent
  | null
  | num (q : ℚ)
deriving DecidableEq, Repr

/-- Python `key in record`. -/
def Field.isPresent : Field → Bool
  | .absent => false
  | _ => true

/-- Python `record.get(key)` truthiness: the numeric value when it is present
and non-zero, otherwise nothing. -/
def Field.truthyNum : Field → Option ℚ
  | .num q => if q = 0 then none else some q
  | _ => none

structure Measurement where
  latitude : Field := .absent
  longitude : Field := .absent
  depth : Field := .absent
  temperature : Field := .absent
  salinity : Field := .absent
  pressure : Field := .absent
  measurement_time : Option String := none
  platform_id : Option String := none
  data_source : Option String := none
  quality_flag : Field := .absent
deriving DecidableEq, Repr

/-! ### `nc_database_service.py` — `query_data` and `_generate_sample_data` -/

/-- The `random` draws consumed by `_generate_sample_data`, one per record
index: `uniform(-3,3)` jitters for latitude and longitude, `uniform(0,2000)`
depth, `uniform(-2,2)` and `uniform(-0.5,0.5)` jitters for temperature and
salinity, the rendered `isoformat` timestamp for `randint(0,365)` days ago,
and the `randint(1000,9999)` platform suffix. -/
structure Rnd where
  latJit : ℕ → ℚ
  lonJit : ℕ → ℚ
  depthR : ℕ → ℚ
  tempJit : ℕ → ℚ
  salJit : ℕ → ℚ
  timeStr : ℕ → String
  pidN : ℕ → ℕ

/-- `_get_regional_characteristics`: `(surface_temp, salinity)` baseline. -/
def regionalCharacteristics (lat : ℚ) (_lon : ℚ) : ℚ × ℚ :=
  if |lat| < 20 then (28, 35)
  else if |lat| < 40 then (18, 34.5)
  else (2, 34)

/-- Decimal rounding for `round(x, dp)`; exact-half behavior differs from
Python's bankers rounding, which no claim depends on. -/
def roundTo (dp : ℕ) (x : ℚ) : ℚ :=
  (⌊x * (10 : ℚ) ^ dp + 1 / 2⌋ : ℚ) / (10 : ℚ) ^ dp

/-- One iteration of the generation loop in `_generate_sample_data`. -/
def generateSampleRecord (rnd : Rnd) (clat clon surfaceTemp baseSal : ℚ) (i : ℕ) :
    Measurement :=
  let lat := clat + rnd.latJit i
  let lon := clon + rnd.lonJit i
  let depth := rnd.depthR i
  let temp := surfaceTemp - depth / 100 * 0.5 + rnd.tempJit i
  let sal := baseSal + rnd.salJit i
  { latitude := .num lat, longitude := .num lon, depth := .num depth,
    temperature := .num (roundTo 2 temp), salinity := .num (roundTo 2 sal),
    pressure := .num (roundTo 1 (depth * 1.025)),
    measurement_time := some (rnd.timeStr i),
    platform_id := some ("NC_FLOAT_" ++ toString (rnd.pidN i)),
    data_source := some "local_database",
    quality_flag := .num 1 }

/-- `_generate_sample_data`. -/
def generateSampleData (rnd : Rnd) (pq : QueryParams) : List Measurement :=
  let clat := pq.center_lat.getD 20
  let clon := pq.center_lon.getD (-30)
  let rc := regionalCharacteristics clat clon
  (List.range 50).map (generateSampleRecord rnd clat clon rc.1 rc.2)

/-- `query_data`: `dbError` models the `except` arm (any storage failure);
`rows` are the already-formatted rows the filter query returned. -/
def queryData (dbError : Bool) (rows : List Measurement) (rnd : Rnd) (pq : QueryParams) :
    List Measurement :=
  if dbError then generateSampleData rnd pq
  else
    let ms := rows.take 1000
    if ms.isEmpty then generateSampleData rnd pq else ms

/-! ### `data_router_service.py` -/

/-- Shapes an external-API payload can take that reach `_validate_response`:
a plain list, or a dict carrying a `"data"` list. -/
inductive ApiData where
  | list (l : List Measurement)
  | dictData (l : List Measurement)
deriving DecidableEq, Repr

/-- Outcome of `_try_api_source`: `timeout` (the `asyncio.TimeoutError` arm),
`err` (any other exception), or a payload. -/
inductive ApiResult where
  | timeout
  | err
  | ok (d : ApiData)
deriving DecidableEq, Repr

/-- `_validate_response`. -/
def validateResponse : ApiData → Bool
  | .list l => !l.isEmpty
  | .dictData l => !l.isEmpty

/-- Lines 170–174 of `_format_unified_response`: pull the measurement list out
of whichever shape arrived. -/
def extractFormatted : ApiData → List Measurement
  | .list l => l
  | .dictData l => l

/-- `_suggest_visualizations` (its `parsed_query` argument is unused in the
source as well). -/
def suggestVisualizations (data : List Measurement) (_pq : QueryParams) : List String :=
  match data with
  | [] => []
  | sample :: _ =>
    ["map"]
    ++ (if sample.latitude.isPresent && sample.longitude.isPresent then ["3d_globe"] else [])
    ++ (if data.length > 1 && sample.temperature.isPresent then ["temperature_timeseries"]
        else [])
    ++ (if data.length > 1 && sample.salinity.isPresent then ["salinity_timeseries"] else [])
    ++ (if sample.depth.isPresent && sample.temperature.isPresent
        then ["temperature_depth_profile"] else [])
    ++ (if data.length > 10 then ["heatmap"] else [])

structure MapBounds where
  min_lat : ℚ
  max_lat : ℚ
  min_lon : ℚ
  max_lon : ℚ
deriving DecidableEq, Repr

/-- `_calculate_map_bounds`: note the truthiness filter `if item.get("latitude")`
on both comprehensions. -/
def calculateMapBounds (data : List Measurement) : Option MapBounds :=
  if data.isEmpty then none
  else
    let lats := data.filterMap (fun m => m.latitude.truthyNum)
    let lons := data.filterMap (fun m => m.longitude.truthyNum)
    match lats.min?, lats.max?, lons.min?, lons.max? with
    | some a, some b, some c, some d => some ⟨a, b, c, d⟩
    | _, _, _, _ => none

/-- The unified/error response dict; `Option` fields are `some` exactly when
the corresponding key is present in the dict the Python code builds. -/
structure Envelope where
  success : Bool
  queryOriginal : String
  parsedQuery : Option QueryParams := none
  measurements : List Measurement := []
  count : ℕ := 0
  source : Option String := none
  metaDataSource : Option String := none
  queryType : Option String := none
  responseTimeMs : Option ℕ := none
  charts : List String := []
  mapBounds : Option MapBounds := none
  errorMessage : Option String := none
  errorDetails : Option String := none
  errorCode : Option String := none
  suggestions : List String := []
deriving DecidableEq, Repr

/-- `_format_unified_response`. -/
def formatUnifiedResponse (data : ApiData) (source : String) (query : String)
    (pq : QueryParams) (rt : ℕ) : Envelope :=
  let formatted := extractFormatted data
  { success := true, queryOriginal := query, parsedQuery := some pq,
    measurements := formatted, count := formatted.length,
    source := some source, metaDataSource := some source,
    queryType := some pq.type, responseTimeMs := some rt,
    charts := suggestVisualizations formatted pq,
    mapBounds := calculateMapBounds formatted }

/-- `_format_error_response` (`debug` is `settings.DEBUG`). -/
def formatErrorResponse (debug : Bool) (query : String) (error : String) : Envelope :=
  { success := false, queryOriginal := query,
    errorMessage := some "Unable to process query at this time",
    errorDetails := some (if debug then error else "Internal server error"),
    errorCode := some "DATA_UNAVAILABLE",
    suggestions := ["Try a different geographic region",
                    "Specify a different time range",
                    "Check your query format"] }

/-- `route_query` past the parse step.  `exc` models an unexpected exception
escaping the pipeline (the outer `except` arm); `api` is the outcome of
`_try_api_source`; `db` is what `query_data` returned for this query. -/
def routeQuery (exc : Option String) (debug : Bool) (api : ApiResult)
    (db : List Measurement) (query : String) (pq : QueryParams) (rt : ℕ) : Envelope :=
  match exc with
  | some e => formatErrorResponse debug query e
  | none =>
    match api with
    | .ok d =>
      if validateResponse d then formatUnifiedResponse d "live_api" query pq rt
      else formatUnifiedResponse (.list db) "local_database" query pq rt
    | _ => formatUnifiedResponse (.list db) "local_database" query pq rt

/-! ### `external_api_service.py` — response parsers -/

/-- The `"table"` part of an ERDDAP JSON payload (`none` when the `"table"` /
`"rows"` keys are missing). -/
structure ErddapTable where
  columnNames : List String
  rows : List (List (Option JVal))
deriving DecidableEq, Repr

/-- The column-to-value loop shared by both parsers: `enumerate(row)` skipping
indices past the column list, keys lower-cased, later assignments winning. -/
def buildRowDict (columns : List String) (row : List (Option JVal)) : PyDict :=
  (columns.zip row).foldl (fun d kv => dinsert d (pyLower kv.1) kv.2) []

/-- `_safe_float`.  String-to-float parsing accepts plain decimal literals with
an optional sign; Python's `float()` accepts a few more spellings (exponents,
padding), none of which any claim depends on. -/
def parseRatChars (l : List Char) : Option ℚ :=
  let core : List Char → Option ℚ := fun l2 =>
    let ds := l2.takeWhile Char.isDigit
    if ds.isEmpty then none
    else
      match l2.drop ds.length with
      | [] => some (digitsToNat ds : ℚ)
      | '.' :: r2 =>
        let fs := r2.takeWhile Char.isDigit
        if r2.drop fs.length = [] then some ((digitsToNat ds : ℚ) + fracOfDigits fs)
        else none
      | _ => none
  match l with
  | '-' :: r => (core r).map Neg.neg
  | '+' :: r => core r
  | _ => core l

def safeFloat : Option JVal → Option ℚ
  | none => none
  | some (.num q) => some q
  | some (.str s) => if s = "" then none else parseRatChars s.toList

/-- `_parse_argo_time`, abstracted to the value level: a truthy time value
parses to itself (in the source, to a `datetime`), a falsy one to `None`. -/
def parseArgoTime (v : Option JVal) : Option JVal :=
  if truthyO v then v else none

/-- `str(...)` of the platform chain
`measurement.get("platform_number") or measurement.get("wmo") or f"ARGO_{row_idx}"`. -/
def platformOf (d : PyDict) (idx : ℕ) : String :=
  match pyOr (vget d "platform_number") (vget d "wmo") with
  | some (.num q) => if q != 0 then toString q else "ARGO_" ++ toString idx
  | some (.str s) => if s != "" then s else "ARGO_" ++ toString idx
  | none => "ARGO_" ++ toString idx

/-- The `standardized` record built for each Argo row. -/
structure ArgoStd where
  latitude : Option ℚ
  longitude : Option ℚ
  depth : Option ℚ
  temperature : Option ℚ
  salinity : Option ℚ
  pressure : Option ℚ
  measurement_time : Option JVal
  platform_id : String
  data_source : String
  quality_flag : Option JVal
  instrument_type : String
deriving DecidableEq, Repr

def standardizeArgoRow (idx : ℕ) (d : PyDict) : ArgoStd :=
  { latitude := safeFloat (pyOr (vget d "latitude") (vget d "lat")),
    longitude := safeFloat (pyOr (vget d "longitude") (vget d "lon")),
    depth := safeFloat (pyOr (pyOr (vget d "pressure") (vget d "pres")) (some (.num 0))),
    temperature := safeFloat (pyOr (vget d "temperature") (vget d "temp")),
    salinity := safeFloat (pyOr (vget d "salinity") (vget d "psal")),
    pressure := safeFloat (pyOr (vget d "pressure") (vget d "pres")),
    measurement_time := parseArgoTime (vget d "time"),
    platform_id := platformOf d idx,
    data_source := "argo_live",
    quality_flag := vgetD d "quality_flag" (.num 1),
    instrument_type := "Argo Float" }

/-- The admission test at the end of `_parse_argo_response`'s row loop. -/
def argoRowValid (s : ArgoStd) : Bool :=
  s.latitude.isSome && s.longitude.isSome && (s.temperature.isSome || s.salinity.isSome)

/-- `_parse_argo_response`. -/
def parseArgoResponse (data : Option ErddapTable) : List ArgoStd :=
  match data with
  | none => []
  | some t =>
    t.rows.enum.filterMap (fun ir =>
      let std := standardizeArgoRow ir.1 (buildRowDict t.columnNames ir.2)
      if argoRowValid std then some std else none)

/-- One `if "old" in measurement: measurement["new"] = measurement.pop("old")`
rename step of `_parse_erddap_response`. -/
def erddapRename (d : PyDict) (oldK newK : String) : PyDict :=
  if dmem d oldK then dinsert (d.filter (fun kv => kv.1 != oldK)) newK (vget d oldK)
  else d

/-- `_parse_erddap_response` — every row is appended; no validity check. -/
def parseErddapResponse (data : Option ErddapTable) : List PyDict :=
  match data with
  | none => []
  | some t =>
    t.rows.map (fun row =>
      let d0 := buildRowDict t.columnNames row
      let d1 := erddapRename d0 "temp" "temperature"
      let d2 := erddapRename d1 "sal" "salinity"
      let d3 := erddapRename d2 "lat" "latitude"
      let d4 := erddapRename d3 "lon" "longitude"
      dinsert d4 "data_source" (some (.str "live_api")))

/-! ### `external_api_service.py` — `get_live_data_status` -/

def liveStatusActive : String := "🟢 Live data active"
def liveStatusDelayed : String := "🟡 Data delay detected"
def liveStatusSignificant : String := "🟠 Significant delay"
def liveStatusUnavailable : String := "🔴 Live data unavailable"

/-- The `status_msg` computation in `get_live_data_status`, verbatim: an
assignment followed by an `if`/`elif` chain. -/
def liveDataStatusMsg (hoursOld : ℚ) : String :=
  if hoursOld > 48 then liveStatusDelayed
  else if hoursOld > 72 then liveStatusSignificant
  else liveStatusActive

structure LiveStatus where
  live_data_available : Bool
  status : String
deriving DecidableEq, Repr

/-- `get_live_data_status`, reduced to the fields the freshness claim is
about: `latestFiles` is what `_get_latest_argo_files` returned, `hoursOld`
the age computed from the date embedded in the newest filename. -/
def getLiveDataStatus (latestFiles : List String) (hoursOld : ℚ) : LiveStatus :=
  if latestFiles.isEmpty then ⟨false, liveStatusUnavailable⟩
  else ⟨true, liveDataStatusMsg hoursOld⟩

/-! ### Derived predicates and concrete inputs used by the theorems -/

/-- The failure modes of `_try_api_source` + `_validate_response` that send
`route_query` to the database fallback. -/
def apiFailed : ApiResult → Bool
  | .timeout => true
  | .err => true
  | .ok d => !validateResponse d

/-- The spatial box filter of the round-trip property stated in the spec:
keep the records with `min_lat ≤ latitude ≤ max_lat` and
`min_lon ≤ longitude ≤ max_lon`. -/
def spatialBoxFilter (b : MapBounds) (data : List Measurement) : List Measurement :=
  data.filter (fun m =>
    match m.latitude, m.longitude with
    | .num la, .num lo =>
      decide (b.min_lat ≤ la ∧ la ≤ b.max_lat ∧ b.min_lon ≤ lo ∧ lo ≤ b.max_lon)
    | _, _ => false)

/-- A fixed wall clock for concrete evaluations. -/
def clock0 : Clock := ⟨"2024-10-12", "2024-09-12", "2023-10-13", "2023"⟩

/-- Randomness stream with all jitters zero. -/
def rnd0 : Rnd :=
  ⟨fun _ => 0, fun _ => 0, fun _ => 0, fun _ => 0, fun _ => 0,
   fun _ => "2024-06-01T00:00:00", fun _ => 1000⟩

/-- The all-defaults parsed query (empty text). -/
def pq0 : QueryParams := parseQuery clock0 ""

end OceanChat

namespace OceanChat

/-! ## Claims -/

/-- **C1.** If the external fetch times out, raises, or returns an
empty/invalid payload (empty list, or dict with an empty `data` entry),
`route_query` answers with `success=true` and `source="local_database"`. -/
theorem routeQuery_falls_back_on_api_failure (debug : Bool) (api : ApiResult)
    (db : List Measurement) (q : String) (pq : QueryParams) (rt : ℕ)
    (h : apiFailed api = true) :
    (routeQuery none debug api db q pq rt).success = true ∧
    (routeQuery none debug api db q pq rt).source = some "local_database" ∧
    (routeQuery none debug api db q pq rt).metaDataSource = some "local_database" := by
  cases api with
  | timeout => exact ⟨rfl, rfl, rfl⟩
  | err => exact ⟨rfl, rfl, rfl⟩
  | ok d =>
    simp only [apiFailed, Bool.not_eq_true'] at h
    simp [routeQuery, h, formatUnifiedResponse]

/-- **C1 witness.** An always-timing-out external client yields a successful
`local_database` envelope. -/
theorem routeQuery_falls_back_on_api_failure_witness :
    apiFailed .timeout = true ∧
    (routeQuery none false .timeout [] "argo floats" pq0 0).success = true ∧
    (routeQuery none false .timeout [] "argo floats" pq0 0).source = some "local_database" :=
  ⟨rfl,
   (routeQuery_falls_back_on_api_failure false .timeout [] "argo floats" pq0 0 rfl).1,
   (routeQuery_falls_back_on_api_failure false .timeout [] "argo floats" pq0 0 rfl).2.1⟩

/-- **C7.** When an unexpected exception escapes the pipeline and debug is
off, `route_query` returns `success=false` with the fixed message, the fixed
generic suggestions, and an envelope that does not depend on the exception
text at all (so the raw text appears nowhere in it). -/
theorem routeQuery_error_envelope_never_leaks (api : ApiResult) (db : List Measurement)
    (q e e2 : String) (pq : QueryParams) (rt : ℕ) :
    (routeQuery (some e) false api db q pq rt).success = false ∧
    (routeQuery (some e) false api db q pq rt).errorMessage =
      some "Unable to process query at this time" ∧
    (routeQuery (some e) false api db q pq rt).errorDetails =
      some "Internal server error" ∧
    (routeQuery (some e) false api db q pq rt).suggestions =
      ["Try a different geographic region", "Specify a different time range",
       "Check your query format"] ∧
    routeQuery (some e) false api db q pq rt = routeQuery (some e2) false api db q pq rt :=
  ⟨rfl, rfl, rfl, rfl, rfl⟩

/-- **C10.** Every success envelope has `data.count` equal to the number of
measurements, and `data.source` equal to `metadata.data_source`. -/
theorem routeQuery_envelope_internally_consistent (exc : Option String) (debug : Bool)
    (api : ApiResult) (db : List Measurement) (q : String) (pq : QueryParams) (rt : ℕ)
    (h : (routeQuery exc debug api db q pq rt).success = true) :
    (routeQuery exc debug api db q pq rt).count =
      (routeQuery exc debug api db q pq rt).measurements.length ∧
    (routeQuery exc debug api db q pq rt).source =
      (routeQuery exc debug api db q pq rt).metaDataSource := by
  cases exc with
  | some e => simp [routeQuery, formatErrorResponse] at h
  | none =>
    cases api with
    | timeout => exact ⟨rfl, rfl⟩
    | err => exact ⟨rfl, rfl⟩
    | ok d =>
      by_cases hv : validateResponse d = true
      · simp [routeQuery, hv, formatUnifiedResponse]
      · simp [routeQuery, hv, formatUnifiedResponse]

/-- **C10 witness.** Consistency at a concrete success envelope. -/
theorem routeQuery_envelope_internally_consistent_witness :
    (routeQuery none false .timeout [] "salinity" pq0 3).success = true ∧
    (routeQuery none false .timeout [] "salinity" pq0 3).count =
      (routeQuery none false .timeout [] "salinity" pq0 3).measurements.length ∧
    (routeQuery none false .timeout [] "salinity" pq0 3).source =
      (routeQuery none false .timeout [] "salinity" pq0 3).metaDataSource :=
  ⟨rfl,
   (routeQuery_envelope_internally_consistent none false .timeout [] "salinity" pq0 3 rfl).1,
   (routeQuery_envelope_internally_consistent none false .timeout [] "salinity" pq0 3 rfl).2⟩

/-- **C6.** The freshness statuses on the code as written: below 48h the
status is active and with no files it is unavailable, as claimed — but an age
of 100h (> 72) produces the *delayed* status, not the distinct
"significant delay" one: the `elif hours_old > 72` branch sits behind
`if hours_old > 48` and is unreachable. -/
theorem liveDataStatus_bands_on_code :
    (getLiveDataStatus ["R20251011_prof_0.nc"] 24).status = liveStatusActive ∧
    (getLiveDataStatus ["R20251009_prof_0.nc"] 60).status = liveStatusDelayed ∧
    (getLiveDataStatus [] 0).live_data_available = false ∧
    (getLiveDataStatus [] 0).status = liveStatusUnavailable ∧
    (getLiveDataStatus ["R20251006_prof_0.nc"] 100).status = liveStatusDelayed ∧
    (getLiveDataStatus ["R20251006_prof_0.nc"] 100).status ≠ liveStatusSignificant := by
  refine ⟨rfl, ?_, rfl, rfl, ?_, ?_⟩ <;> decide

/-- A live-API record sitting on the equator (`latitude = 0`). -/
def mEq : Measurement :=
  { latitude := .num 0, longitude := .num 10, depth := .num 100,
    temperature := .num 15, salinity := .num 35, pressure := .num 102,
    measurement_time := some "2024-06-01T00:00:00", platform_id := some "API_FLOAT_1000",
    data_source := some "live_api", quality_flag := .num 1 }

/-- A live-API record north of `mEq`. -/
def mNorth : Measurement := { mEq with latitude := .num 5 }

/-- The success envelope for a validated external payload `[mEq, mNorth]`. -/
def envEq : Envelope :=
  routeQuery none false (.ok (.list [mEq, mNorth])) [] "equator temperature" pq0 0

/-- **C5.** `_calculate_map_bounds` filters coordinates by Python truthiness,
so a latitude of `0` is dropped from the min/max computation: for the
measurement set `[mEq, mNorth]` the computed bounds are `[5,5]×[10,10]`, and
re-filtering the envelope's own measurements by its own `map_bounds` loses the
equator record instead of returning the original sequence. -/
theorem mapBounds_roundtrip_fails_at_zero_latitude :
    envEq.success = true ∧
    envEq.measurements = [mEq, mNorth] ∧
    envEq.mapBounds = some ⟨5, 5, 10, 10⟩ ∧
    spatialBoxFilter ⟨5, 5, 10, 10⟩ envEq.measurements = [mNorth] ∧
    spatialBoxFilter ⟨5, 5, 10, 10⟩ envEq.measurements ≠ envEq.measurements := by
  refine ⟨rfl, rfl, ?_, ?_, ?_⟩ <;> decide

/-- The parsed query for the text `"95n 10e"`: the coordinate regex accepts
out-of-range latitudes unclamped. -/
def pq95 : QueryParams := parseQuery clock0 "95n 10e"

/-- **C2 counterexample.** For the (parser-reachable) query centered at
latitude 95 with zero jitter, the synthesized batch has 50 records but its
first record — tagged `local_database` — has latitude 95, outside `[-90, 90]`. -/
theorem queryData_sample_latitude_out_of_range :
    pq95.center_lat = some 95 ∧
    (queryData false [] rnd0 pq95).length = 50 ∧
    ((queryData false [] rnd0 pq95)[0]?.map Measurement.data_source) =
      some (some "local_database") ∧
    ((queryData false [] rnd0 pq95)[0]?.map Measurement.latitude) = some (.num 95) ∧
    ¬(-90 ≤ (95 : ℚ) ∧ (95 : ℚ) ≤ 90) := by
  have hc : pq95.center_lat = some 95 := rfl
  refine ⟨hc, ?_, ?_, ?_, by norm_num⟩
  · simp [queryData, generateSampleData]
  · simp [queryData, generateSampleData, generateSampleRecord]
  · simp [queryData, generateSampleData, generateSampleRecord, hc, rnd0]

/-- Directional keywords in the lower-cased query. -/
def hasDirectionalB (ql : String) : Bool :=
  containsSub ql "north" || containsSub ql "south" ||
  containsSub ql "east" || containsSub ql "west"

/-- **C3 counterexample.** The text `"north"` matches only a directional
keyword, so the extracted spatial dict is non-empty (suppressing the default
global bounds) yet carries no `bounds` entry: the parsed query has none of
the four spatial bound fields. -/
theorem parseQuery_north_lacks_spatial_bounds :
    (parseQuery clock0 "north").min_lat = none ∧
    (parseQuery clock0 "north").max_lat = none ∧
    (parseQuery clock0 "north").min_lon = none ∧
    (parseQuery clock0 "north").max_lon = none ∧
    (parseQuery clock0 "north").center_lat = some 45 := by
  refine ⟨?_, ?_, ?_, ?_, ?_⟩ <;> rfl

theorem optionIsSomeMap {α β : Type} (f : α → β) (o : Option α) :
    (o.map f).isSome = o.isSome := by
  cases o <;> rfl

theorem extractParameters_ne_nil (ql : String) : extractParameters ql ≠ [] := by
  simp only [extractParameters]
  split
  · simp
  · rename_i h
    intro hnil
    rw [hnil] at h
    simp at h

theorem spatialStepNS_bounds (ql : String) (s : SpatialInfo) :
    (spatialStepNS ql s).bounds = s.bounds := by
  unfold spatialStepNS
  split
  · rfl
  · split
    · rfl
    · rfl

theorem spatialStepEW_bounds (ql : String) (s : SpatialInfo) :
    (spatialStepEW ql s).bounds = s.bounds := by
  unfold spatialStepEW
  split
  · rfl
  · split
    · rfl
    · rfl

theorem spatialStepCoord_bounds_isSome (ql : String) (s : SpatialInfo)
    (h : s.bounds.isSome = true) : (spatialStepCoord ql s).bounds.isSome = true := by
  unfold spatialStepCoord
  split
  · rfl
  · exact h

theorem spatialStepCoord_sets (ql : String) (s : SpatialInfo)
    (hla : (latMatch ql).isSome = true) (hlo : (lonMatch ql).isSome = true) :
    (spatialStepCoord ql s).bounds.isSome = true := by
  obtain ⟨la, hla⟩ := Option.isSome_iff_exists.mp hla
  obtain ⟨lo, hlo⟩ := Option.isSome_iff_exists.mp hlo
  unfold spatialStepCoord
  rw [hla, hlo]
  rfl

theorem spatialStepRegion_bounds (ql : String) (h : (regionHit ql).isSome = true) :
    (spatialStepRegion ql).bounds.isSome = true := by
  obtain ⟨r, hr⟩ := Option.isSome_iff_exists.mp h
  unfold spatialStepRegion
  rw [hr]
  rfl

theorem extractSpatialInfo_bounds_eq (ql : String) :
    (extractSpatialInfo ql).bounds = (spatialStepCoord ql (spatialStepRegion ql)).bounds := by
  unfold extractSpatialInfo
  rw [spatialStepEW_bounds, spatialStepNS_bounds]

theorem extractSpatialInfo_empty (ql : String) (h1 : regionHit ql = none)
    (h2 : ¬((latMatch ql).isSome = true ∧ (lonMatch ql).isSome = true))
    (h3 : hasDirectionalB ql = false) : extractSpatialInfo ql = {} := by
  simp only [hasDirectionalB, Bool.or_eq_false_iff] at h3
  have hreg : spatialStepRegion ql = {} := by
    unfold spatialStepRegion
    rw [h1]
  have hcoord : spatialStepCoord ql {} = ({} : SpatialInfo) := by
    unfold spatialStepCoord
    split
    · rename_i la lo hla hlo
      exact absurd ⟨by rw [hla]; rfl, by rw [hlo]; rfl⟩ h2
    · rfl
  have hns : spatialStepNS ql {} = ({} : SpatialInfo) := by
    unfold spatialStepNS
    rw [h3.1.1.1, h3.1.1.2]
    rfl
  have hew : spatialStepEW ql {} = ({} : SpatialInfo) := by
    unfold spatialStepEW
    rw [h3.1.2, h3.2]
    rfl
  unfold extractSpatialInfo
  rw [hreg, hcoord, hns, hew]

theorem extractTemporalInfo_shape (c : Clock) (ql : String) :
    extractTemporalInfo c ql = {} ∨
    ((extractTemporalInfo c ql).start_time.isSome = true ∧
     (extractTemporalInfo c ql).end_time.isSome = true) := by
  unfold extractTemporalInfo
  split
  · exact Or.inr ⟨rfl, rfl⟩
  · split
    · exact Or.inr ⟨rfl, rfl⟩
    · split
      · exact Or.inr ⟨rfl, rfl⟩
      · exact Or.inl rfl

/-- **C3 amended.** The parser always yields non-empty `parameters`, centers
and a complete temporal range; the four spatial bound fields are complete
whenever the text names a region, contains a full coordinate pair, or
contains no directional keyword (texts matching *only* a directional keyword
suppress the default global bounds and lack all four bound fields). -/
theorem parseQuery_fills_defaults (c : Clock) (t : String)
    (h : (regionHit (pyLower t)).isSome = true ∨
         ((latMatch (pyLower t)).isSome = true ∧ (lonMatch (pyLower t)).isSome = true) ∨
         hasDirectionalB (pyLower t) = false) :
    (parseQuery c t).parameters ≠ [] ∧
    (parseQuery c t).center_lat.isSome = true ∧
    (parseQuery c t).center_lon.isSome = true ∧
    (parseQuery c t).start_time.isSome = true ∧
    (parseQuery c t).end_time.isSome = true ∧
    (parseQuery c t).min_lat.isSome = true ∧
    (parseQuery c t).max_lat.isSome = true ∧
    (parseQuery c t).min_lon.isSome = true ∧
    (parseQuery c t).max_lon.isSome = true := by
  have hb : (if spatialIsEmpty (extractSpatialInfo (pyLower t)) then defaultSpatialBounds
      else extractSpatialInfo (pyLower t)).bounds.isSome = true := by
    by_cases hs : spatialIsEmpty (extractSpatialInfo (pyLower t)) = true
    · rw [if_pos hs]
      rfl
    · rw [if_neg hs]
      have hsome : (spatialStepCoord (pyLower t) (spatialStepRegion (pyLower t))).bounds.isSome
          = true := by
        rcases h with hreg | ⟨hla, hlo⟩ | hdir
        · exact spatialStepCoord_bounds_isSome _ _ (spatialStepRegion_bounds _ hreg)
        · exact spatialStepCoord_sets _ _ hla hlo
        · by_cases hr : (regionHit (pyLower t)).isSome = true
          · exact spatialStepCoord_bounds_isSome _ _ (spatialStepRegion_bounds _ hr)
          · by_cases hcp : (latMatch (pyLower t)).isSome = true ∧
                (lonMatch (pyLower t)).isSome = true
            · exact spatialStepCoord_sets _ _ hcp.1 hcp.2
            · exfalso
              have hnone : regionHit (pyLower t) = none := by
                cases hx : regionHit (pyLower t) with
                | none => rfl
                | some r => exact absurd (by rw [hx]; rfl) hr
              have hempty : extractSpatialInfo (pyLower t) = {} :=
                extractSpatialInfo_empty _ hnone hcp hdir
              rw [hempty] at hs
              exact hs rfl
      rw [extractSpatialInfo_bounds_eq]
      exact hsome
  have ht : (if temporalIsEmpty (extractTemporalInfo c (pyLower t)) then defaultTemporalRange c
      else extractTemporalInfo c (pyLower t)).start_time.isSome = true ∧
      (if temporalIsEmpty (extractTemporalInfo c (pyLower t)) then defaultTemporalRange c
      else extractTemporalInfo c (pyLower t)).end_time.isSome = true := by
    rcases extractTemporalInfo_shape c (pyLower t) with he | ⟨h1, h2⟩
    · rw [he]
      exact ⟨rfl, rfl⟩
    · have hne : temporalIsEmpty (extractTemporalInfo c (pyLower t)) = false := by
        unfold temporalIsEmpty
        obtain ⟨v, hv⟩ := Option.isSome_iff_exists.mp h1
        rw [hv]
        rfl
      rw [if_neg (by simp [hne])]
      exact ⟨h1, h2⟩
  exact ⟨extractParameters_ne_nil _, rfl, rfl, ht.1, ht.2,
    (optionIsSomeMap Bounds4.minLat _).trans hb, (optionIsSomeMap Bounds4.maxLat _).trans hb,
    (optionIsSomeMap Bounds4.minLon _).trans hb, (optionIsSomeMap Bounds4.maxLon _).trans hb⟩

/-- **C3 witness.** A region-bearing text gets every field filled. -/
theorem parseQuery_fills_defaults_witness :
    (parseQuery clock0 "atlantic salinity").parameters ≠ [] ∧
    (parseQuery clock0 "atlantic salinity").center_lat.isSome = true ∧
    (parseQuery clock0 "atlantic salinity").center_lon.isSome = true ∧
    (parseQuery clock0 "atlantic salinity").start_time.isSome = true ∧
    (parseQuery clock0 "atlantic salinity").end_time.isSome = true ∧
    (parseQuery clock0 "atlantic salinity").min_lat.isSome = true ∧
    (parseQuery clock0 "atlantic salinity").max_lat.isSome = true ∧
    (parseQuery clock0 "atlantic salinity").min_lon.isSome = true ∧
    (parseQuery clock0 "atlantic salinity").max_lon.isSome = true :=
  parseQuery_fills_defaults clock0 "atlantic salinity" (Or.inl (by decide))

/-- **C8 counterexample.** The text `"1999"` contains an explicit 4-digit
year, but the year regex is `(20\d{2})`, so no year is extracted and the
parser falls back to the default trailing-365-day range instead of the 1999
calendar year. -/
theorem parseQuery_1999_not_full_year :
    yearScan (pyLower "1999").toList = none ∧
    (parseQuery clock0 "1999").start_time = some "2023-10-13" ∧
    (parseQuery clock0 "1999").end_time = some "2024-10-12" ∧
    (parseQuery clock0 "1999").start_time ≠ some "1999-01-01" := by
  refine ⟨rfl, rfl, rfl, ?_⟩
  decide

/-- **C8 amended.** For texts carrying a year of the form `20xx` and none of
the overriding relative-time keywords (`recent`, `latest`, `last year`), the
parser yields January 1 through December 31 of the first such year. -/
theorem parseQuery_year_full_range (c : Clock) (t : String) (y : String)
    (hy : yearScan (pyLower t).toList = some y)
    (hr : containsSub (pyLower t) "recent" = false)
    (hl : containsSub (pyLower t) "latest" = false)
    (hly : containsSub (pyLower t) "last year" = false) :
    (parseQuery c t).start_time = some (y ++ "-01-01") ∧
    (parseQuery c t).end_time = some (y ++ "-12-31") := by
  have htp : extractTemporalInfo c (pyLower t) =
      { start_time := some (y ++ "-01-01"), end_time := some (y ++ "-12-31") } := by
    unfold extractTemporalInfo
    rw [hr, hl, hly, hy]
    rfl
  have h1 : (parseQuery c t).start_time =
      (if temporalIsEmpty (extractTemporalInfo c (pyLower t)) then defaultTemporalRange c
       else extractTemporalInfo c (pyLower t)).start_time := rfl
  have h2 : (parseQuery c t).end_time =
      (if temporalIsEmpty (extractTemporalInfo c (pyLower t)) then defaultTemporalRange c
       else extractTemporalInfo c (pyLower t)).end_time := rfl
  rw [h1, h2, htp]
  exact ⟨rfl, rfl⟩

/-- **C8 witness.** Scenario 5: the text `"2022"` parses to the full 2022
calendar year. -/
theorem parseQuery_year_full_range_witness :
    (parseQuery clock0 "2022").start_time = some "2022-01-01" ∧
    (parseQuery clock0 "2022").end_time = some "2022-12-31" :=
  parseQuery_year_full_range clock0 "2022" "2022" rfl rfl rfl rfl

/-- **C2 amended.** On zero rows or a storage error, `query_data` synthesizes
exactly 50 records, each tagged `local_database`; with the jitter bounded by
±3 as drawn by `uniform(-3, 3)`, every latitude lies within ±3 of the query's
center (default 20) and every longitude within ±3 of its center (default
−30) — hence inside `[-90, 90] × [-180, 180]` whenever those centers lie in
`[-87, 87] × [-177, 177]`, which unclamped parsed coordinates can violate. -/
theorem queryData_synthesizes_50_tagged_records (dbError : Bool)
    (rows : List Measurement) (rnd : Rnd) (pq : QueryParams)
    (hlat : ∀ i, -3 ≤ rnd.latJit i ∧ rnd.latJit i ≤ 3)
    (hlon : ∀ i, -3 ≤ rnd.lonJit i ∧ rnd.lonJit i ≤ 3)
    (hclat : -87 ≤ pq.center_lat.getD 20 ∧ pq.center_lat.getD 20 ≤ 87)
    (hclon : -177 ≤ pq.center_lon.getD (-30) ∧ pq.center_lon.getD (-30) ≤ 177)
    (hempty : dbError = true ∨ rows = []) :
    (queryData dbError rows rnd pq).length = 50 ∧
    ∀ m ∈ queryData dbError rows rnd pq,
      m.data_source = some "local_database" ∧
      (∃ la, m.latitude = .num la ∧ -90 ≤ la ∧ la ≤ 90) ∧
      (∃ lo, m.longitude = .num lo ∧ -180 ≤ lo ∧ lo ≤ 180) := by
  have hq : queryData dbError rows rnd pq = generateSampleData rnd pq := by
    rcases hempty with h | h
    · rw [h]
      rfl
    · rw [h]
      cases dbError <;> rfl
  rw [hq]
  constructor
  · simp [generateSampleData]
  · intro m hm
    simp only [generateSampleData, List.mem_map, List.mem_range] at hm
    obtain ⟨i, _, rfl⟩ := hm
    refine ⟨rfl, ⟨_, rfl, ?_, ?_⟩, ⟨_, rfl, ?_, ?_⟩⟩
    · have := (hlat i).1
      have := hclat.1
      linarith
    · have := (hlat i).2
      have := hclat.2
      linarith
    · have := (hlon i).1
      have := hclon.1
      linarith
    · have := (hlon i).2
      have := hclon.2
      linarith

/-- **C2 witness.** The default parsed query with zero jitter yields the
50-record synthetic batch. -/
theorem queryData_synthesizes_50_tagged_records_witness :
    (queryData false [] rnd0 pq0).length = 50 :=
  (queryData_synthesizes_50_tagged_records false [] rnd0 pq0
    (fun _ => by constructor <;> norm_num [rnd0])
    (fun _ => by constructor <;> norm_num [rnd0])
    (by
      have hc : pq0.center_lat = some 0 := rfl
      rw [hc]
      norm_num [Option.getD])
    (by
      have hc : pq0.center_lon = some 0 := rfl
      rw [hc]
      norm_num [Option.getD])
    (Or.inr rfl)).1

/-- **C4 amended.** Every record the Argo response parser emits has both
coordinates present and at least one of temperature/salinity non-null — the
admission test guards its output.  (The ERDDAP response parser performs no
such check; see the counterexample.) -/
theorem parseArgoResponse_records_valid (data : Option ErddapTable) (m : ArgoStd)
    (h : m ∈ parseArgoResponse data) :
    m.latitude.isSome = true ∧ m.longitude.isSome = true ∧
    (m.temperature.isSome = true ∨ m.salinity.isSome = true) := by
  cases data with
  | none => simp [parseArgoResponse] at h
  | some t =>
    simp only [parseArgoResponse, List.mem_filterMap] at h
    obtain ⟨ir, _, hif⟩ := h
    split at hif
    · rename_i hvalid
      cases hif
      simp only [argoRowValid, Bool.and_eq_true, Bool.or_eq_true] at hvalid
      exact ⟨hvalid.1.1, hvalid.1.2, hvalid.2⟩
    · cases hif

/-- An ERDDAP table whose single row has a temperature but no coordinates. -/
def tblNoCoords : ErddapTable := ⟨["temperature"], [[some (.num 5)]]⟩

/-- **C4 counterexample.** `_parse_erddap_response` appends every row: a row
with no coordinates (and hence a missing latitude and longitude) still
appears in the returned sequence, tagged `live_api`. -/
theorem parseErddapResponse_keeps_invalid_rows :
    (parseErddapResponse (some tblNoCoords)).length = 1 ∧
    (parseErddapResponse (some tblNoCoords)).map (fun d => dmem d "latitude") = [false] ∧
    (parseErddapResponse (some tblNoCoords)).map (fun d => dmem d "longitude") = [false] ∧
    (parseErddapResponse (some tblNoCoords)).map (fun d => vget d "data_source") =
      [some (.str "live_api")] := by
  refine ⟨rfl, ?_, ?_, ?_⟩ <;> decide

/-- An ERDDAP table whose single row is a fully valid Argo measurement. -/
def tblValid : ErddapTable :=
  ⟨["latitude", "longitude", "temperature"], [[some (.num 1), some (.num 2), some (.num 10)]]⟩

/-- The record the Argo parser builds from `tblValid`'s only row. -/
def mValid : ArgoStd :=
  standardizeArgoRow 0 (buildRowDict tblValid.columnNames [some (.num 1), some (.num 2),
    some (.num 10)])

/-- **C4 witness.** The invariant applied to a concrete parsed record. -/
theorem parseArgoResponse_records_valid_witness :
    mValid ∈ parseArgoResponse (some tblValid) ∧
    mValid.latitude.isSome = true ∧ mValid.longitude.isSome = true ∧
    (mValid.temperature.isSome = true ∨ mValid.salinity.isSome = true) := by
  have hmem : mValid ∈ parseArgoResponse (some tblValid) := by decide
  have h := parseArgoResponse_records_valid (some tblValid) mValid hmem
  exact ⟨hmem, h.1, h.2.1, h.2.2⟩

/-! Helper lemmas about the visualization suggestions and data sources. -/

theorem generateSampleData_ne_nil (rnd : Rnd) (pq : QueryParams) :
    generateSampleData rnd pq ≠ [] := by
  simp [generateSampleData]

theorem queryData_ne_nil (dbError : Bool) (rows : List Measurement) (rnd : Rnd)
    (pq : QueryParams) : queryData dbError rows rnd pq ≠ [] := by
  simp only [queryData]
  split
  · exact generateSampleData_ne_nil rnd pq
  · split
    · exact generateSampleData_ne_nil rnd pq
    · rename_i h
      intro hnil
      rw [hnil] at h
      simp at h

theorem extractFormatted_ne_nil (d : ApiData) (h : validateResponse d = true) :
    extractFormatted d ≠ [] := by
  cases d with
  | list l =>
    simp only [validateResponse, Bool.not_eq_true'] at h
    simpa [extractFormatted] using (List.isEmpty_eq_false.mp h)
  | dictData l =>
    simp only [validateResponse, Bool.not_eq_true'] at h
    simpa [extractFormatted] using (List.isEmpty_eq_false.mp h)

theorem suggestVisualizations_policy (sample : Measurement) (rest : List Measurement)
    (pq : QueryParams) :
    "map" ∈ suggestVisualizations (sample :: rest) pq ∧
    (sample.latitude.isPresent = true → sample.longitude.isPresent = true →
      "3d_globe" ∈ suggestVisualizations (sample :: rest) pq) ∧
    ((sample :: rest).length > 1 → sample.temperature.isPresent = true →
      "temperature_timeseries" ∈ suggestVisualizations (sample :: rest) pq) ∧
    ((sample :: rest).length > 1 → sample.salinity.isPresent = true →
      "salinity_timeseries" ∈ suggestVisualizations (sample :: rest) pq) ∧
    (sample.depth.isPresent = true → sample.temperature.isPresent = true →
      "temperature_depth_profile" ∈ suggestVisualizations (sample :: rest) pq) ∧
    ((sample :: rest).length > 10 →
      "heatmap" ∈ suggestVisualizations (sample :: rest) pq) := by
  refine ⟨?_, ?_, ?_, ?_, ?_, ?_⟩
  · simp [suggestVisualizations]
  · intro h1 h2
    simp [suggestVisualizations, h1, h2]
  · intro h1 h2
    simp only [List.length_cons] at h1
    simp [suggestVisualizations, h1, h2]
  · intro h1 h2
    simp only [List.length_cons] at h1
    simp [suggestVisualizations, h1, h2]
  · intro h1 h2
    simp [suggestVisualizations, h1, h2]
  · intro h1
    simp only [List.length_cons] at h1
    simp [suggestVisualizations, h1]

theorem memIteSingleton {c : Prop} [Decidable c] {s x : String}
    (h : s ∈ (if c then [x] else ([] : List String))) : s = x := by
  by_cases hc : c
  · rw [if_pos hc] at h
    simpa using h
  · rw [if_neg hc] at h
    simp at h

theorem suggestVisualizations_subset (data : List Measurement) (pq : QueryParams)
    (s : String) (hs : s ∈ suggestVisualizations data pq) :
    s ∈ (["map", "3d_globe", "temperature_timeseries", "salinity_timeseries",
          "temperature_depth_profile", "heatmap"] : List String) := by
  cases data with
  | nil => simp [suggestVisualizations] at hs
  | cons sample rest =>
    simp only [suggestVisualizations, List.mem_append, List.mem_cons, List.mem_singleton,
      List.not_mem_nil, or_false] at hs
    rcases hs with ((((h | h) | h) | h) | h) | h
    · simp [h]
    · rw [memIteSingleton h]
      simp
    · rw [memIteSingleton h]
      simp
    · rw [memIteSingleton h]
      simp
    · rw [memIteSingleton h]
      simp
    · rw [memIteSingleton h]
      simp

theorem formatUnified_policy (data : ApiData) (src q : String) (pq : QueryParams) (rt : ℕ)
    (hne : extractFormatted data ≠ []) :
    (formatUnifiedResponse data src q pq rt).success = true ∧
    (formatUnifiedResponse data src q pq rt).measurements ≠ [] ∧
    "map" ∈ (formatUnifiedResponse data src q pq rt).charts ∧
    (∀ m0, (formatUnifiedResponse data src q pq rt).measurements.head? = some m0 →
      (m0.latitude.isPresent = true → m0.longitude.isPresent = true →
        "3d_globe" ∈ (formatUnifiedResponse data src q pq rt).charts) ∧
      ((formatUnifiedResponse data src q pq rt).measurements.length > 1 →
        m0.temperature.isPresent = true →
        "temperature_timeseries" ∈ (formatUnifiedResponse data src q pq rt).charts) ∧
      ((formatUnifiedResponse data src q pq rt).measurements.length > 1 →
        m0.salinity.isPresent = true →
        "salinity_timeseries" ∈ (formatUnifiedResponse data src q pq rt).charts) ∧
      (m0.depth.isPresent = true → m0.temperature.isPresent = true →
        "temperature_depth_profile" ∈ (formatUnifiedResponse data src q pq rt).charts)) ∧
    ((formatUnifiedResponse data src q pq rt).measurements.length > 10 →
      "heatmap" ∈ (formatUnifiedResponse data src q pq rt).charts) ∧
    (∀ s ∈ (formatUnifiedResponse data src q pq rt).charts,
      s ∈ (["map", "3d_globe", "temperature_timeseries", "salinity_timeseries",
            "temperature_depth_profile", "heatmap"] : List String)) := by
  have hms : (formatUnifiedResponse data src q pq rt).measurements = extractFormatted data :=
    rfl
  have hch : (formatUnifiedResponse data src q pq rt).charts =
      suggestVisualizations (extractFormatted data) pq := rfl
  cases hd : extractFormatted data with
  | nil => exact absurd hd hne
  | cons sample rest =>
    rw [hms, hch, hd]
    have hp := suggestVisualizations_policy sample rest pq
    refine ⟨rfl, by simp, hp.1, ?_, hp.2.2.2.2.2, fun s hs => suggestVisualizations_subset _ _ s hs⟩
    intro m0 hm0
    have : m0 = sample := by
      simp at hm0
      exact hm0.symm
    subst this
    exact ⟨hp.2.1, hp.2.2.1, hp.2.2.2.1, hp.2.2.2.2.1⟩

/-- `route_query` with the database leg supplied by `query_data` and no
unexpected exception. -/
def routeQueryDb (debug : Bool) (api : ApiResult) (dbError : Bool)
    (rows : List Measurement) (rnd : Rnd) (q : String) (pq : QueryParams) (rt : ℕ) :
    Envelope :=
  routeQuery none debug api (queryData dbError rows rnd pq) q pq rt

/-- **C9 amended.** Success envelopes always carry a non-empty measurement
list and suggest `map`; they add `3d_globe` when the first record has both
coordinates, `temperature_timeseries`/`salinity_timeseries` when the first
record carries the field and there is more than one record,
`temperature_depth_profile` when the first record has depth and temperature,
and `heatmap` beyond 10 records; no other chart tags (in particular no
`pressure_timeseries`) are ever suggested. -/
theorem routeQuery_visualization_policy (debug : Bool) (api : ApiResult) (dbError : Bool)
    (rows : List Measurement) (rnd : Rnd) (q : String) (pq : QueryParams) (rt : ℕ) :
    (routeQueryDb debug api dbError rows rnd q pq rt).success = true ∧
    (routeQueryDb debug api dbError rows rnd q pq rt).measurements ≠ [] ∧
    "map" ∈ (routeQueryDb debug api dbError rows rnd q pq rt).charts ∧
    (∀ m0, (routeQueryDb debug api dbError rows rnd q pq rt).measurements.head? = some m0 →
      (m0.latitude.isPresent = true → m0.longitude.isPresent = true →
        "3d_globe" ∈ (routeQueryDb debug api dbError rows rnd q pq rt).charts) ∧
      ((routeQueryDb debug api dbError rows rnd q pq rt).measurements.length > 1 →
        m0.temperature.isPresent = true →
        "temperature_timeseries" ∈ (routeQueryDb debug api dbError rows rnd q pq rt).charts) ∧
      ((routeQueryDb debug api dbError rows rnd q pq rt).measurements.length > 1 →
        m0.salinity.isPresent = true →
        "salinity_timeseries" ∈ (routeQueryDb debug api dbError rows rnd q pq rt).charts) ∧
      (m0.depth.isPresent = true → m0.temperature.isPresent = true →
        "temperature_depth_profile" ∈
          (routeQueryDb debug api dbError rows rnd q pq rt).charts)) ∧
    ((routeQueryDb debug api dbError rows rnd q pq rt).measurements.length > 10 →
      "heatmap" ∈ (routeQueryDb debug api dbError rows rnd q pq rt).charts) ∧
    (∀ s ∈ (routeQueryDb debug api dbError rows rnd q pq rt).charts,
      s ∈ (["map", "3d_globe", "temperature_timeseries", "salinity_timeseries",
            "temperature_depth_profile", "heatmap"] : List String)) := by
  have hdb : extractFormatted (.list (queryData dbError rows rnd pq)) ≠ [] :=
    queryData_ne_nil dbError rows rnd pq
  cases api with
  | timeout => exact formatUnified_policy _ "local_database" q pq rt hdb
  | err => exact formatUnified_policy _ "local_database" q pq rt hdb
  | ok d =>
    by_cases hv : validateResponse d = true
    · have heq : routeQueryDb debug (.ok d) dbError rows rnd q pq rt =
          formatUnifiedResponse d "live_api" q pq rt := by
        simp only [routeQueryDb, routeQuery]
        rw [if_pos hv]
      rw [heq]
      exact formatUnified_policy _ "live_api" q pq rt (extractFormatted_ne_nil d hv)
    · have heq : routeQueryDb debug (.ok d) dbError rows rnd q pq rt =
          formatUnifiedResponse (.list (queryData dbError rows rnd pq)) "local_database"
            q pq rt := by
        simp only [routeQueryDb, routeQuery]
        rw [if_neg hv]
      rw [heq]
      exact formatUnified_policy _ "local_database" q pq rt hdb

/-- **C9 witness.** The policy evaluated on a concrete validated live-API
envelope with two fully-populated records. -/
theorem routeQuery_visualization_policy_witness :
    "map" ∈ (routeQueryDb false (.ok (.list [mEq, mNorth])) false [] rnd0 "equator temperature"
      pq0 0).charts ∧
    "3d_globe" ∈ (routeQueryDb false (.ok (.list [mEq, mNorth])) false [] rnd0
      "equator temperature" pq0 0).charts ∧
    "temperature_timeseries" ∈ (routeQueryDb false (.ok (.list [mEq, mNorth])) false [] rnd0
      "equator temperature" pq0 0).charts := by
  have h := routeQuery_visualization_policy false (.ok (.list [mEq, mNorth])) false [] rnd0
    "equator temperature" pq0 0
  have hm := h.2.2.2.1 mEq rfl
  exact ⟨h.2.2.1, hm.1 rfl rfl, hm.2.1 (by decide) rfl⟩

/-- A live-API record with every field populated, including pressure. -/
def mP1 : Measurement :=
  { latitude := .num 10, longitude := .num 20, depth := .num 100,
    temperature := .num 15, salinity := .num 35, pressure := .num 102,
    measurement_time := some "2025-01-01T00:00:00", platform_id := some "API_FLOAT_1001",
    data_source := some "live_api", quality_flag := .num 1 }

/-- A second such record. -/
def mP2 : Measurement := { mP1 with latitude := .num 11 }

/-- The parsed query for the text `"pressure"`. -/
def pqPressure : QueryParams := parseQuery clock0 "pressure"

/-- The success envelope for a validated two-record payload carrying pressure. -/
def envPressure : Envelope :=
  routeQuery none false (.ok (.list [mP1, mP2])) [] "pressure" pqPressure 0

/-- **C9 counterexample.** A success envelope whose two records both carry the
`pressure` parameter (and whose query asked for pressure) gets no
`pressure_timeseries` suggestion — only temperature and salinity have
timeseries tags. -/
theorem suggestVisualizations_no_pressure_timeseries :
    envPressure.success = true ∧
    pqPressure.parameters = ["pressure"] ∧
    envPressure.measurements.all (fun m => m.pressure.isPresent) = true ∧
    envPressure.measurements.length = 2 ∧
    envPressure.charts = ["map", "3d_globe", "temperature_timeseries",
      "salinity_timeseries", "temperature_depth_profile"] ∧
    "pressure_timeseries" ∉ envPressure.charts := by
  refine ⟨rfl, rfl, rfl, rfl, ?_, ?_⟩ <;> decide

end OceanChat
